/-
Verification development for the playlist repository: a shallow embedding
of the browser front-end scripts (UI-handler utilities, the video editor,
the photo editor, the country explorer, and the rock-paper-scissors game)
with theorems about the job-submission / status-polling pattern, input
validation, timer management and game scoring.

Conventions of the embedding:
* JavaScript's event-driven runtime is modelled by explicit "world" records
  carrying the mutable state of each script, the set of live interval
  timers, and the observable effects accumulated so far (toast
  notifications, network requests issued per endpoint class, console-error
  logs, download actions).
* `setInterval` registers a fresh timer id with its period; `clearInterval`
  removes it; an event-loop "tick" of a timer only fires while the timer is
  live, exactly as in a browser.
* Network responses are inputs chosen by the environment (an outcome
  parameter per asynchronous call), so every operation is a pure function
  from the pre-state and the environment's answers to the post-state.
* DOM text contents and previews are elided; section visibility, button
  disabled flags and toasts are tracked because the specification talks
  about user-visible behaviour.
-/

import Mathlib

namespace Playlist

/-- A user-selected file: its MIME type string and its size in bytes
(`File.type` / `File.size` in the browser). -/
structure VFile where
  ftype : String
  size : Nat
  deriving Repr, DecidableEq

/-- Result record returned by the validation helpers:
`{valid: boolean, error: string}` (the `error` field is absent on
success, modelled as `none`). -/
structure ValidationResult where
  valid : Bool
  error : Option String
  deriving Repr, DecidableEq

/-- `formatFileSize` from the UI handler: converts a byte count to a
human-readable string.  `Math.floor(Math.log(bytes)/Math.log(1024))` is the
base-1024 logarithm, modelled exactly with `Nat.log`; the rounding
`Math.round(x*100)/100` is modelled in exact arithmetic as round-half-up of
hundredths, and rendered the way JavaScript prints the resulting number
(no trailing zeros, no decimal point for integers). -/
def formatFileSize (bytes : Nat) : String :=
  if bytes = 0 then "0 Bytes"
  else
    let sizes := ["Bytes", "KB", "MB", "GB", "TB"]
    let i := Nat.log 1024 bytes
    let pow := 1024 ^ i
    let hundredths := (bytes * 100 * 2 + pow) / (2 * pow)
    let intPart := hundredths / 100
    let frac := hundredths % 100
    let numStr :=
      if frac = 0 then toString intPart
      else if frac % 10 = 0 then toString intPart ++ "." ++ toString (frac / 10)
      else if frac < 10 then toString intPart ++ ".0" ++ toString frac
      else toString intPart ++ "." ++ toString frac
    numStr ++ " " ++ sizes.getD i ""

/-- `validateImageFile` from the UI handler: allow-list of image MIME types
and a 50MB size cap. -/
def validateImageFile (file : VFile) : ValidationResult :=
  let validTypes := ["image/jpeg", "image/png", "image/bmp", "image/gif",
                     "image/tiff", "image/webp"]
  let maxSize := 50 * 1024 * 1024
  if ¬ (file.ftype ∈ validTypes) then
    { valid := false,
      error := some "Invalid file type. Please upload a JPG, PNG, BMP, GIF, TIFF, or WebP image." }
  else if file.size > maxSize then
    { valid := false,
      error := some ("File size exceeds 50MB limit. Your file is " ++ formatFileSize file.size ++ ".") }
  else
    { valid := true, error := none }

/-- `validateVideoFile` from the UI handler: allow-list of video MIME types
and a 500MB size cap. -/
def validateVideoFile (file : VFile) : ValidationResult :=
  let validTypes := ["video/mp4", "video/avi", "video/quicktime", "video/x-matroska",
                     "video/webm", "video/x-flv", "video/x-ms-wmv"]
  let maxSize := 500 * 1024 * 1024
  if ¬ (file.ftype ∈ validTypes) then
    { valid := false,
      error := some "Invalid file type. Please upload an MP4, AVI, MOV, MKV, WebM, FLV, or WMV video." }
  else if file.size > maxSize then
    { valid := false,
      error := some ("File size exceeds 500MB limit. Your file is " ++ formatFileSize file.size ++ ".") }
  else
    { valid := true, error := none }

/-- A toast notification created by `showToast(message, type)`: the message
text and the severity string (`success` / `error` / `info`). -/
structure Toast where
  message : String
  severity : String
  deriving Repr, DecidableEq

/-- Metadata returned by the video upload endpoint and stored in
`videoState.metadata` (`duration`, `resolution.width/height`, `size`). -/
structure VideoMeta where
  duration : Nat
  width : Nat
  height : Nat
  size : Nat
  deriving Repr, DecidableEq

/-- Outcome of an upload request (`uploadFile`): either it rejects with an
error message, or it resolves with the parsed response (`upload_id` plus
metadata; the photo editor only stores the `upload_id`). -/
inductive UploadOutcome where
  | err (msg : String)
  | ok (uploadId : Nat) (meta : VideoMeta)
  deriving Repr, DecidableEq

/-- Outcome of a job-submission request (`apiRequest` to the upscale /
resize / process endpoint): either it throws, or it resolves with a
`job_id`. -/
inductive SubmitOutcome where
  | err (msg : String)
  | ok (jobId : Nat)
  deriving Repr, DecidableEq

/-- Outcome of one status-poll request: `netError` is any rejection of the
`fetch` (network failure or non-success HTTP response, both of which make
`apiRequest` throw); `ok` carries the parsed `{status, progress, error?}`
body. -/
inductive PollOutcome where
  | netError
  | ok (status : String) (progress : Nat) (error : Option String)
  deriving Repr, DecidableEq

/-- The mutable world of the video editor: `videoState` fields, the live
interval timers of this script ((id, period-in-ms) pairs, every one of
which was registered by `startStatusPolling` with callback
`checkVideoStatus`), a fresh-id counter for `setInterval`, and the
accumulated observable effects. -/
structure VideoWorld where
  uploadId : Option Nat
  jobId : Option Nat
  originalFile : Option VFile
  metadata : Option VideoMeta
  statusPollInterval : Option Nat
  liveTimers : List (Nat × Nat)
  nextTimer : Nat
  toasts : List Toast
  uploadRequests : Nat
  submitRequests : Nat
  pollRequests : Nat
  downloadActions : Nat
  logErrors : Nat
  processingVisible : Bool
  downloadVisible : Bool
  upscaleBtnDisabled : Bool
  resizeBtnDisabled : Bool
  deriving Repr, DecidableEq

/-- The initial world: `videoState`'s literal initial values; browser timer
ids are positive, so the fresh counter starts at 1. -/
def videoInit : VideoWorld :=
  { uploadId := none, jobId := none, originalFile := none, metadata := none
    statusPollInterval := none, liveTimers := [], nextTimer := 1
    toasts := [], uploadRequests := 0, submitRequests := 0, pollRequests := 0
    downloadActions := 0, logErrors := 0
    processingVisible := false, downloadVisible := false
    upscaleBtnDisabled := true, resizeBtnDisabled := true }

/-- `showToast` as observed through the world: appends one toast. -/
def vShowToast (w : VideoWorld) (message severity : String) : VideoWorld :=
  { w with toasts := w.toasts ++ [⟨message, severity⟩] }

/-- `clearInterval(id)`: deregisters the timer with that id (a no-op when
the id is not live). -/
def vClearInterval (w : VideoWorld) (id : Nat) : VideoWorld :=
  { w with liveTimers := w.liveTimers.filter (fun x => x.1 ≠ id) }

/-- `setInterval(checkVideoStatus, period)`: registers a fresh timer and
returns its id. -/
def vSetInterval (w : VideoWorld) (period : Nat) : Nat × VideoWorld :=
  (w.nextTimer,
   { w with liveTimers := w.liveTimers ++ [(w.nextTimer, period)]
            nextTimer := w.nextTimer + 1 })

/-- `checkVideoStatus`: returns immediately when no `jobId` is active
(issuing no request); otherwise issues one status request and handles the
outcome.  A rejected request is logged only (the `catch` block).  Status
`processing` only updates text.  Status `completed` clears the interval,
swaps the processing section for the download section, re-enables the
action buttons and shows a success toast.  Status `failed` clears the
interval, hides the processing section, re-enables the buttons and shows
one error toast whose message is `response.error || 'Video processing
failed'` (JavaScript `||`: an absent or empty `error` falls back to the
default). -/
def checkVideoStatus (w : VideoWorld) (out : PollOutcome) : VideoWorld :=
  match w.jobId with
  | none => w
  | some _ =>
    let w1 := { w with pollRequests := w.pollRequests + 1 }
    match out with
    | .netError => { w1 with logErrors := w1.logErrors + 1 }
    | .ok status _progress error =>
      if status = "processing" then
        w1
      else if status = "completed" then
        let w2 := match w1.statusPollInterval with
          | some t => vClearInterval w1 t
          | none => w1
        let w3 := { w2 with statusPollInterval := none
                            processingVisible := false, downloadVisible := true
                            upscaleBtnDisabled := false, resizeBtnDisabled := false }
        vShowToast w3 "Video processed successfully!" "success"
      else if status = "failed" then
        let w2 := match w1.statusPollInterval with
          | some t => vClearInterval w1 t
          | none => w1
        let w3 := { w2 with statusPollInterval := none
                            processingVisible := false
                            upscaleBtnDisabled := false, resizeBtnDisabled := false }
        let errorMsg := match error with
          | some e => if e = "" then "Video processing failed" else e
          | none => "Video processing failed"
        vShowToast w3 errorMsg "error"
      else
        w1

/-- `startStatusPolling`: clears any existing interval, registers a fresh
2000ms interval whose id is stored in `videoState.statusPollInterval`, and
checks immediately (the immediate `checkVideoStatus()` call consumes the
environment's answer `firstPoll`). -/
def startStatusPolling (w : VideoWorld) (firstPoll : PollOutcome) : VideoWorld :=
  let w1 := match w.statusPollInterval with
    | some t => vClearInterval w t
    | none => w
  let (id, w2) := vSetInterval w1 2000
  let w3 := { w2 with statusPollInterval := some id }
  checkVideoStatus w3 firstPoll

/-- `resetVideoEditor`: clears the state, cancels polling when active,
resets the UI and disables the action buttons. -/
def resetVideoEditor (w : VideoWorld) : VideoWorld :=
  let w1 := { w with uploadId := none, jobId := none
                     originalFile := none, metadata := none }
  let w2 := match w1.statusPollInterval with
    | some t => { (vClearInterval w1 t) with statusPollInterval := none }
    | none => w1
  { w2 with upscaleBtnDisabled := true, resizeBtnDisabled := true
            processingVisible := false, downloadVisible := false }

/-- `handleVideoFile`: validates locally first and returns (after one error
toast) when validation fails, issuing no network request; otherwise stores
the file, issues the upload request, and on success stores the
`upload_id` and metadata and enables the action buttons, while on failure
it shows the error (`handleError` extracts `error.message`) and resets the
editor. -/
def handleVideoFile (w : VideoWorld) (file : VFile) (up : UploadOutcome) : VideoWorld :=
  let validation := validateVideoFile file
  if ¬ validation.valid then
    vShowToast w (validation.error.getD "") "error"
  else
    let w1 := { w with originalFile := some file }
    let w2 := vShowToast w1 "Uploading video..." "info"
    let w3 := { w2 with uploadRequests := w2.uploadRequests + 1 }
    match up with
    | .ok uid meta =>
      let w4 := { w3 with uploadId := some uid, metadata := some meta
                          upscaleBtnDisabled := false, resizeBtnDisabled := false }
      vShowToast w4 "Video uploaded successfully!" "success"
    | .err msg =>
      resetVideoEditor (vShowToast w3 msg "error")

/-- `upscaleVideo`: rejects with a toast when nothing was uploaded;
otherwise shows the processing section, issues the upscale request, and on
success stores the `job_id`, starts status polling and shows the started
toast, while on failure it hides the processing section, re-enables the
button and shows the error. -/
def upscaleVideo (w : VideoWorld) (sub : SubmitOutcome) (firstPoll : PollOutcome) :
    VideoWorld :=
  match w.uploadId with
  | none => vShowToast w "Please upload a video first" "error"
  | some _ =>
    let w1 := { w with processingVisible := true, downloadVisible := false
                       upscaleBtnDisabled := true }
    let w2 := { w1 with submitRequests := w1.submitRequests + 1 }
    match sub with
    | .ok jobId =>
      let w3 := { w2 with jobId := some jobId }
      let w4 := startStatusPolling w3 firstPoll
      vShowToast w4 "Video upscaling started" "info"
    | .err msg =>
      let w3 := { w2 with processingVisible := false, upscaleBtnDisabled := false }
      vShowToast w3 msg "error"

/-- `resizeVideo`: same shape as `upscaleVideo` with the resize endpoint
and toasts (the resize payload details do not affect the controller
state). -/
def resizeVideo (w : VideoWorld) (sub : SubmitOutcome) (firstPoll : PollOutcome) :
    VideoWorld :=
  match w.uploadId with
  | none => vShowToast w "Please upload a video first" "error"
  | some _ =>
    let w1 := { w with processingVisible := true, downloadVisible := false
                       resizeBtnDisabled := true }
    let w2 := { w1 with submitRequests := w1.submitRequests + 1 }
    match sub with
    | .ok jobId =>
      let w3 := { w2 with jobId := some jobId }
      let w4 := startStatusPolling w3 firstPoll
      vShowToast w4 "Video resizing started" "info"
    | .err msg =>
      let w3 := { w2 with processingVisible := false, resizeBtnDisabled := false }
      vShowToast w3 msg "error"

/-- `downloadVideo`: rejects with a toast when no `jobId` is stored;
otherwise constructs the download link, clicks it (one download action)
and shows the started toast.  Note the guard checks only the presence of
`jobId`, never the job's status. -/
def downloadVideo (w : VideoWorld) : VideoWorld :=
  match w.jobId with
  | none => vShowToast w "No processed video available" "error"
  | some _ =>
    vShowToast { w with downloadActions := w.downloadActions + 1 }
      "Download started!" "success"

/-- The `beforeunload` handler: clears the active polling interval (it does
not null the `statusPollInterval` field). -/
def videoUnload (w : VideoWorld) : VideoWorld :=
  match w.statusPollInterval with
  | some t => vClearInterval w t
  | none => w

/-- The events the environment can feed the video editor.  `tick t out`
is the event loop firing interval timer `t` (every interval this script
registers runs `checkVideoStatus`); it only has an effect while `t` is
live, exactly as in the browser. -/
inductive VideoEvent where
  | file (f : VFile) (up : UploadOutcome)
  | upscale (sub : SubmitOutcome) (firstPoll : PollOutcome)
  | resize (sub : SubmitOutcome) (firstPoll : PollOutcome)
  | tick (t : Nat) (out : PollOutcome)
  | download
  | reset
  | unload
  deriving Repr, DecidableEq

/-- One step of the video editor's event loop. -/
def videoStep (w : VideoWorld) (e : VideoEvent) : VideoWorld :=
  match e with
  | .file f up => handleVideoFile w f up
  | .upscale sub fp => upscaleVideo w sub fp
  | .resize sub fp => resizeVideo w sub fp
  | .tick t out => if (t, 2000) ∈ w.liveTimers then checkVideoStatus w out else w
  | .download => downloadVideo w
  | .reset => resetVideoEditor w
  | .unload => videoUnload w

/-- The world reached from the initial state by a sequence of events. -/
def videoRun (es : List VideoEvent) : VideoWorld :=
  es.foldl videoStep videoInit

/-- Timer bookkeeping invariant of the video editor: when a polling
interval id is stored, it is fresh-bounded and it is the only possibly
live timer; when none is stored, no timer is live at all. -/
def VideoInv (w : VideoWorld) : Prop :=
  match w.statusPollInterval with
  | some t => t < w.nextTimer ∧ (w.liveTimers = [] ∨ w.liveTimers = [(t, 2000)])
  | none => w.liveTimers = []

/-- `photoState.currentEffects`: the effect parameters of the photo
editor. -/
structure PhotoEffects where
  filter : String
  brightness : ℚ
  contrast : ℚ
  color : ℚ
  sharpness : ℚ
  deriving Repr, DecidableEq

/-- The default effects value used at initialisation and by
`resetEffects`. -/
def defaultEffects : PhotoEffects :=
  { filter := "", brightness := 1, contrast := 1, color := 1, sharpness := 1 }

/-- The mutable world of the photo editor: `photoState` fields plus live
timers (the photo editor never registers any) and the accumulated
observable effects.  `statusRequests` counts requests to a job-status
endpoint; no code path of the photo editor issues one. -/
structure PhotoWorld where
  uploadId : Option Nat
  jobId : Option Nat
  originalFile : Option VFile
  currentEffects : PhotoEffects
  liveTimers : List (Nat × Nat)
  toasts : List Toast
  uploadRequests : Nat
  submitRequests : Nat
  statusRequests : Nat
  downloadActions : Nat
  processingVisible : Bool
  downloadVisible : Bool
  processBtnDisabled : Bool
  deriving Repr, DecidableEq

/-- The initial `photoState`. -/
def photoInit : PhotoWorld :=
  { uploadId := none, jobId := none, originalFile := none
    currentEffects := defaultEffects
    liveTimers := [], toasts := []
    uploadRequests := 0, submitRequests := 0, statusRequests := 0
    downloadActions := 0
    processingVisible := false, downloadVisible := false
    processBtnDisabled := true }

/-- `showToast` as observed through the photo editor's world. -/
def pShowToast (w : PhotoWorld) (message severity : String) : PhotoWorld :=
  { w with toasts := w.toasts ++ [⟨message, severity⟩] }

/-- `resetEffects`: restores the default effect values and shows an info
toast. -/
def resetEffects (w : PhotoWorld) : PhotoWorld :=
  pShowToast { w with currentEffects := defaultEffects }
    "Effects reset to default" "info"

/-- `resetPhotoEditor`: clears the state, resets the effects and the UI,
and disables the process button. -/
def resetPhotoEditor (w : PhotoWorld) : PhotoWorld :=
  let w1 := { w with uploadId := none, jobId := none, originalFile := none }
  let w2 := resetEffects w1
  { w2 with processBtnDisabled := true
            processingVisible := false, downloadVisible := false }

/-- `handlePhotoFile`: validates locally first and returns (after one
error toast) when validation fails, issuing no network request; otherwise
stores the file, issues the upload request, and on success stores the
`upload_id` and enables the process button, while on failure it shows the
error and resets the editor. -/
def handlePhotoFile (w : PhotoWorld) (file : VFile) (up : UploadOutcome) : PhotoWorld :=
  let validation := validateImageFile file
  if ¬ validation.valid then
    pShowToast w (validation.error.getD "") "error"
  else
    let w1 := { w with originalFile := some file }
    let w2 := pShowToast w1 "Uploading photo..." "info"
    let w3 := { w2 with uploadRequests := w2.uploadRequests + 1 }
    match up with
    | .ok uid _meta =>
      let w4 := { w3 with uploadId := some uid, processBtnDisabled := false }
      pShowToast w4 "Photo uploaded successfully!" "success"
    | .err msg =>
      resetPhotoEditor (pShowToast w3 msg "error")

/-- `processPhoto`: rejects with a toast when nothing was uploaded;
otherwise shows the processing section and issues the processing request.
On success it stores the `job_id`, hides the processing section, shows the
download section and shows a success toast — it starts no polling: the
photo editor has no status-polling code at all.  On failure it hides the
processing section and shows the error. -/
def processPhoto (w : PhotoWorld) (sub : SubmitOutcome) : PhotoWorld :=
  match w.uploadId with
  | none => pShowToast w "Please upload a photo first" "error"
  | some _ =>
    let w1 := { w with processingVisible := true, downloadVisible := false
                       processBtnDisabled := true }
    let w2 := { w1 with submitRequests := w1.submitRequests + 1 }
    match sub with
    | .ok jobId =>
      let w3 := { w2 with jobId := some jobId
                          processingVisible := false, downloadVisible := true
                          processBtnDisabled := false }
      pShowToast w3 "Photo processed successfully!" "success"
    | .err msg =>
      let w3 := { w2 with processingVisible := false, processBtnDisabled := false }
      pShowToast w3 msg "error"

/-- `downloadPhoto`: rejects with a toast when no `jobId` is stored;
otherwise constructs the download link and clicks it.  As with the video
editor, the guard checks only the presence of `jobId`, never the job's
status. -/
def downloadPhoto (w : PhotoWorld) : PhotoWorld :=
  match w.jobId with
  | none => pShowToast w "No processed photo available" "error"
  | some _ =>
    pShowToast { w with downloadActions := w.downloadActions + 1 }
      "Download started!" "success"

/-- The events the environment can feed the photo editor. -/
inductive PhotoEvent where
  | file (f : VFile) (up : UploadOutcome)
  | process (sub : SubmitOutcome)
  | download
  | reset
  deriving Repr, DecidableEq

/-- One step of the photo editor's event loop. -/
def photoStep (w : PhotoWorld) (e : PhotoEvent) : PhotoWorld :=
  match e with
  | .file f up => handlePhotoFile w f up
  | .process sub => processPhoto w sub
  | .download => downloadPhoto w
  | .reset => resetPhotoEditor w

/-- The photo-editor world reached from the initial state by a sequence of
events. -/
def photoRun (es : List PhotoEvent) : PhotoWorld :=
  es.foldl photoStep photoInit

/-- The score object of the rock-paper-scissors game. -/
structure Score where
  wins : Nat
  losses : Nat
  ties : Nat
  deriving Repr, DecidableEq

/-- `pickComputerMove`: maps the value of `Math.random()` (a number in
`[0,1)`, modelled as a rational) to a move by thirds; the accumulator
starts as the empty string and is returned unchanged when no branch
matches. -/
def pickComputerMove (randomNumber : ℚ) : String :=
  let computerMove := ""
  if 0 ≤ randomNumber ∧ randomNumber < 1 / 3 then "Rock"
  else if 1 / 3 ≤ randomNumber ∧ randomNumber < 2 / 3 then "Paper"
  else if 2 / 3 ≤ randomNumber ∧ randomNumber < 1 then "Scissors"
  else computerMove

/-- `playGame`: draws the computer move from `pickComputerMove`, resolves
the result string by the nested conditionals of the source, and increments
exactly the counter selected by the result.  Returns the updated score and
the result string. -/
def playGame (playerMove : String) (randomNumber : ℚ) (score : Score) :
    Score × String :=
  let computerMove := pickComputerMove randomNumber
  let result :=
    if playerMove = "Scissors" then
      if computerMove = "Rock" then "Perdiste"
      else if computerMove = "Paper" then "Ganaste"
      else if computerMove = "Scissors" then "Empate"
      else ""
    else if playerMove = "Paper" then
      if computerMove = "Rock" then "Ganaste"
      else if computerMove = "Paper" then "Empate"
      else if computerMove = "Scissors" then "Perdiste"
      else ""
    else if playerMove = "Rock" then
      if computerMove = "Rock" then "Empate"
      else if computerMove = "Paper" then "Perdiste"
      else if computerMove = "Scissors" then "Ganaste"
      else ""
    else ""
  let score1 :=
    if result = "Ganaste" then { score with wins := score.wins + 1 }
    else if result = "Perdiste" then { score with losses := score.losses + 1 }
    else if result = "Empate" then { score with ties := score.ties + 1 }
    else score
  (score1, result)

/-- `GROWTH_PER_SECOND` from the country explorer:
`0.0105 / (365.25 * 24 * 60 * 60)`, in exact rational arithmetic. -/
def GROWTH_PER_SECOND : ℚ :=
  (105 / 10000) / ((36525 / 100) * 24 * 60 * 60)

/-- The mutable world of the country explorer's population counter: the
`populationInterval` global, the running population estimate, the live
population timers ((id, period) pairs registered by
`startPopulationCounter`; the crypto-rate refresh interval is a separate
timer that never touches `populationInterval` and is not modelled here)
and a fresh-id counter. -/
structure AlmWorld where
  populationInterval : Option Nat
  currentPopulation : ℚ
  liveTimers : List (Nat × Nat)
  nextTimer : Nat
  deriving Repr, DecidableEq

/-- Initial state of the country explorer (`populationInterval = null`,
`currentPopulation = 0`). -/
def almInit : AlmWorld :=
  { populationInterval := none, currentPopulation := 0
    liveTimers := [], nextTimer := 1 }

/-- `clearInterval(id)` in the country explorer's world. -/
def aClearInterval (w : AlmWorld) (id : Nat) : AlmWorld :=
  { w with liveTimers := w.liveTimers.filter (fun x => x.1 ≠ id) }

/-- `startPopulationCounter(initialPopulation)`: clears the previously
registered interval when one exists, stores the initial population,
updates the display immediately, and registers a fresh 1000ms interval
whose id is stored in `populationInterval`. -/
def startPopulationCounter (w : AlmWorld) (initialPopulation : ℚ) : AlmWorld :=
  let w1 := match w.populationInterval with
    | some t => aClearInterval w t
    | none => w
  let w2 := { w1 with currentPopulation := initialPopulation }
  { w2 with liveTimers := w2.liveTimers ++ [(w2.nextTimer, 1000)]
            nextTimer := w2.nextTimer + 1
            populationInterval := some w2.nextTimer }

/-- The `beforeunload` handler of the country explorer: clears the active
population interval (it does not null the `populationInterval`
variable). -/
def almUnload (w : AlmWorld) : AlmWorld :=
  match w.populationInterval with
  | some t => aClearInterval w t
  | none => w

/-- Events of the country explorer's population counter: selecting a
country (which calls `startPopulationCounter` with that country's
population), an interval firing (the callback compounds the population by
`GROWTH_PER_SECOND`; it only runs while the timer is live), and page
unload. -/
inductive AlmEvent where
  | select (population : ℚ)
  | tick (t : Nat)
  | unload
  deriving Repr, DecidableEq

/-- One step of the country explorer's event loop. -/
def almStep (w : AlmWorld) (e : AlmEvent) : AlmWorld :=
  match e with
  | .select population => startPopulationCounter w population
  | .tick t =>
    if (t, 1000) ∈ w.liveTimers then
      { w with currentPopulation :=
          w.currentPopulation + w.currentPopulation * GROWTH_PER_SECOND }
    else w
  | .unload => almUnload w

/-- The country-explorer world reached from the initial state. -/
def almRun (es : List AlmEvent) : AlmWorld :=
  es.foldl almStep almInit

/-- Timer bookkeeping invariant of the population counter: when an
interval id is stored it is fresh-bounded and is the only possibly live
timer; when none is stored no timer is live. -/
def AlmInv (w : AlmWorld) : Prop :=
  match w.populationInterval with
  | some t => t < w.nextTimer ∧ (w.liveTimers = [] ∨ w.liveTimers = [(t, 1000)])
  | none => w.liveTimers = []

/-- The message of the `failed` toast: `response.error || default` with
JavaScript truthiness (an absent or empty string falls back). -/
def failedMsg (e : Option String) : String :=
  match e with
  | some s => if s = "" then "Video processing failed" else s
  | none => "Video processing failed"

/-- A demonstration state of the video editor: a valid video was uploaded
(upload id 1) and an upscale job (job id 5) was submitted whose immediate
first poll reported `processing`, so the polling loop (timer id 1) is
live. -/
def wDemo : VideoWorld :=
  videoRun [.file ⟨"video/mp4", 1000⟩ (.ok 1 ⟨10, 1920, 1080, 1000⟩),
            .upscale (.ok 5) (.ok "processing" 0 none)]

/-- Photo-editor state after uploading a valid photo (upload id 1) and
successfully submitting a processing job (job id 7). -/
def pDemoDone : PhotoWorld :=
  photoRun [.file ⟨"image/png", 1000⟩ (.ok 1 ⟨0, 0, 0, 0⟩), .process (.ok 7)]

/-- Video-editor state after a successful upload (upload id 1), before any
submission. -/
def wUploaded : VideoWorld :=
  videoRun [.file ⟨"video/mp4", 1000⟩ (.ok 1 ⟨10, 1920, 1080, 1000⟩)]

/-- Photo-editor state after a successful upload (upload id 1), before any
submission. -/
def pDemo : PhotoWorld :=
  photoRun [.file ⟨"image/png", 1000⟩ (.ok 1 ⟨0, 0, 0, 0⟩)]

/-- Country-explorer state after one country selection: the population
timer (id 1) is live. -/
def aDemo : AlmWorld := almRun [.select 1000000]

theorem videoInv_mk_none {w : VideoWorld} (hs : w.statusPollInterval = none)
    (hl : w.liveTimers = []) : VideoInv w := by
  unfold VideoInv
  rw [hs]
  exact hl

theorem videoInv_mk_some {w : VideoWorld} {t : Nat}
    (hs : w.statusPollInterval = some t) (hn : t < w.nextTimer)
    (hl : w.liveTimers = [] ∨ w.liveTimers = [(t, 2000)]) : VideoInv w := by
  unfold VideoInv
  rw [hs]
  exact ⟨hn, hl⟩

theorem videoInv_dest_none {w : VideoWorld} (h : VideoInv w)
    (hs : w.statusPollInterval = none) : w.liveTimers = [] := by
  unfold VideoInv at h
  rw [hs] at h
  exact h

theorem videoInv_dest_some {w : VideoWorld} {t : Nat} (h : VideoInv w)
    (hs : w.statusPollInterval = some t) :
    t < w.nextTimer ∧ (w.liveTimers = [] ∨ w.liveTimers = [(t, 2000)]) := by
  unfold VideoInv at h
  rw [hs] at h
  exact h

theorem videoInv_of_eq {w w' : VideoWorld}
    (h1 : w'.statusPollInterval = w.statusPollInterval)
    (h2 : w'.liveTimers = w.liveTimers)
    (h3 : w'.nextTimer = w.nextTimer)
    (h : VideoInv w) : VideoInv w' := by
  unfold VideoInv at *
  rw [h1, h2, h3]
  exact h

theorem videoInv_length {w : VideoWorld} (h : VideoInv w) :
    w.liveTimers.length ≤ 1 := by
  unfold VideoInv at h
  cases hs : w.statusPollInterval with
  | none =>
    rw [hs] at h
    simp [h]
  | some t =>
    rw [hs] at h
    rcases h.2 with h2 | h2 <;> simp [h2]

theorem vClearInterval_tracked (w : VideoWorld) (t : Nat)
    (h : w.liveTimers = [] ∨ w.liveTimers = [(t, 2000)]) :
    (vClearInterval w t).liveTimers = [] := by
  rcases h with h | h <;> simp [vClearInterval, h]

theorem checkVideoStatus_inv {w : VideoWorld} (out : PollOutcome)
    (h : VideoInv w) : VideoInv (checkVideoStatus w out) := by
  unfold checkVideoStatus
  cases hj : w.jobId with
  | none => exact h
  | some j =>
    cases out with
    | netError => exact videoInv_of_eq rfl rfl rfl h
    | ok status progress error =>
      dsimp only
      by_cases hp : status = "processing"
      · rw [if_pos hp]
        exact videoInv_of_eq rfl rfl rfl h
      · rw [if_neg hp]
        by_cases hc : status = "completed"
        · rw [if_pos hc]
          cases hs : w.statusPollInterval with
          | none =>
            have hl := videoInv_dest_none h hs
            exact videoInv_mk_none rfl hl
          | some t =>
            have hl := (videoInv_dest_some h hs).2
            exact videoInv_mk_none rfl (vClearInterval_tracked _ t hl)
        · rw [if_neg hc]
          by_cases hf : status = "failed"
          · rw [if_pos hf]
            cases hs : w.statusPollInterval with
            | none =>
              have hl := videoInv_dest_none h hs
              exact videoInv_mk_none rfl hl
            | some t =>
              have hl := (videoInv_dest_some h hs).2
              exact videoInv_mk_none rfl (vClearInterval_tracked _ t hl)
          · rw [if_neg hf]
            exact videoInv_of_eq rfl rfl rfl h

theorem startStatusPolling_inv {w : VideoWorld} (fp : PollOutcome)
    (h : VideoInv w) : VideoInv (startStatusPolling w fp) := by
  unfold startStatusPolling
  apply checkVideoStatus_inv
  cases hs : w.statusPollInterval with
  | none =>
    have hl := videoInv_dest_none h hs
    show VideoInv { w with statusPollInterval := some w.nextTimer
                           liveTimers := w.liveTimers ++ [(w.nextTimer, 2000)]
                           nextTimer := w.nextTimer + 1 }
    refine videoInv_mk_some rfl (Nat.lt_succ_self _) (Or.inr ?_)
    show w.liveTimers ++ [(w.nextTimer, 2000)] = [(w.nextTimer, 2000)]
    rw [hl]
    rfl
  | some t =>
    have hl := (videoInv_dest_some h hs).2
    show VideoInv { (vClearInterval w t) with
                    statusPollInterval := some w.nextTimer
                    liveTimers := (vClearInterval w t).liveTimers ++ [(w.nextTimer, 2000)]
                    nextTimer := w.nextTimer + 1 }
    refine videoInv_mk_some rfl (Nat.lt_succ_self _) (Or.inr ?_)
    show (vClearInterval w t).liveTimers ++ [(w.nextTimer, 2000)] =
      [(w.nextTimer, 2000)]
    rw [vClearInterval_tracked w t hl]
    rfl

theorem resetVideoEditor_inv {w : VideoWorld} (h : VideoInv w) :
    VideoInv (resetVideoEditor w) := by
  unfold resetVideoEditor
  dsimp only
  cases hs : w.statusPollInterval with
  | none =>
    have hl := videoInv_dest_none h hs
    exact videoInv_mk_none rfl hl
  | some t =>
    have hl := (videoInv_dest_some h hs).2
    exact videoInv_mk_none rfl (vClearInterval_tracked _ t hl)

theorem videoUnload_inv {w : VideoWorld} (h : VideoInv w) :
    VideoInv (videoUnload w) := by
  unfold videoUnload
  cases hs : w.statusPollInterval with
  | none => exact h
  | some t =>
    have hd := videoInv_dest_some h hs
    have hs' : (vClearInterval w t).statusPollInterval = some t := hs
    exact videoInv_mk_some hs' hd.1 (Or.inl (vClearInterval_tracked w t hd.2))

theorem handleVideoFile_inv {w : VideoWorld} (f : VFile) (up : UploadOutcome)
    (h : VideoInv w) : VideoInv (handleVideoFile w f up) := by
  unfold handleVideoFile
  dsimp only
  by_cases hv : (validateVideoFile f).valid
  · rw [if_neg (by simp [hv])]
    cases up with
    | ok uid meta => exact videoInv_of_eq rfl rfl rfl h
    | err msg =>
      exact resetVideoEditor_inv (videoInv_of_eq rfl rfl rfl h)
  · rw [if_pos (by simp [hv])]
    exact videoInv_of_eq rfl rfl rfl h

theorem upscaleVideo_inv {w : VideoWorld} (sub : SubmitOutcome) (fp : PollOutcome)
    (h : VideoInv w) : VideoInv (upscaleVideo w sub fp) := by
  unfold upscaleVideo
  cases w.uploadId with
  | none => exact videoInv_of_eq rfl rfl rfl h
  | some u =>
    cases sub with
    | ok j =>
      exact videoInv_of_eq rfl rfl rfl
        (startStatusPolling_inv fp (videoInv_of_eq rfl rfl rfl h))
    | err msg => exact videoInv_of_eq rfl rfl rfl h

theorem resizeVideo_inv {w : VideoWorld} (sub : SubmitOutcome) (fp : PollOutcome)
    (h : VideoInv w) : VideoInv (resizeVideo w sub fp) := by
  unfold resizeVideo
  cases w.uploadId with
  | none => exact videoInv_of_eq rfl rfl rfl h
  | some u =>
    cases sub with
    | ok j =>
      exact videoInv_of_eq rfl rfl rfl
        (startStatusPolling_inv fp (videoInv_of_eq rfl rfl rfl h))
    | err msg => exact videoInv_of_eq rfl rfl rfl h

theorem downloadVideo_inv {w : VideoWorld} (h : VideoInv w) :
    VideoInv (downloadVideo w) := by
  unfold downloadVideo
  cases w.jobId with
  | none => exact videoInv_of_eq rfl rfl rfl h
  | some j => exact videoInv_of_eq rfl rfl rfl h

theorem videoStep_inv {w : VideoWorld} (e : VideoEvent)
    (h : VideoInv w) : VideoInv (videoStep w e) := by
  cases e with
  | file f up => exact handleVideoFile_inv f up h
  | upscale sub fp => exact upscaleVideo_inv sub fp h
  | resize sub fp => exact resizeVideo_inv sub fp h
  | tick t out =>
    unfold videoStep
    dsimp only
    by_cases hm : (t, 2000) ∈ w.liveTimers
    · rw [if_pos hm]
      exact checkVideoStatus_inv out h
    · rw [if_neg hm]
      exact h
  | download => exact downloadVideo_inv h
  | reset => exact resetVideoEditor_inv h
  | unload => exact videoUnload_inv h

theorem videoInit_inv : VideoInv videoInit := by
  unfold VideoInv videoInit
  simp

theorem videoFoldl_inv {w : VideoWorld} (es : List VideoEvent)
    (h : VideoInv w) : VideoInv (es.foldl videoStep w) := by
  induction es generalizing w with
  | nil => exact h
  | cons e es ih => exact ih (videoStep_inv e h)

theorem videoRun_inv (es : List VideoEvent) : VideoInv (videoRun es) :=
  videoFoldl_inv es videoInit_inv

theorem almInv_mk_none {w : AlmWorld} (hs : w.populationInterval = none)
    (hl : w.liveTimers = []) : AlmInv w := by
  unfold AlmInv
  rw [hs]
  exact hl

theorem almInv_mk_some {w : AlmWorld} {t : Nat}
    (hs : w.populationInterval = some t) (hn : t < w.nextTimer)
    (hl : w.liveTimers = [] ∨ w.liveTimers = [(t, 1000)]) : AlmInv w := by
  unfold AlmInv
  rw [hs]
  exact ⟨hn, hl⟩

theorem almInv_dest_none {w : AlmWorld} (h : AlmInv w)
    (hs : w.populationInterval = none) : w.liveTimers = [] := by
  unfold AlmInv at h
  rw [hs] at h
  exact h

theorem almInv_dest_some {w : AlmWorld} {t : Nat} (h : AlmInv w)
    (hs : w.populationInterval = some t) :
    t < w.nextTimer ∧ (w.liveTimers = [] ∨ w.liveTimers = [(t, 1000)]) := by
  unfold AlmInv at h
  rw [hs] at h
  exact h

theorem almInv_length {w : AlmWorld} (h : AlmInv w) :
    w.liveTimers.length ≤ 1 := by
  unfold AlmInv at h
  cases hs : w.populationInterval with
  | none =>
    rw [hs] at h
    simp [h]
  | some t =>
    rw [hs] at h
    rcases h.2 with h2 | h2 <;> simp [h2]

theorem aClearInterval_tracked (w : AlmWorld) (t : Nat)
    (h : w.liveTimers = [] ∨ w.liveTimers = [(t, 1000)]) :
    (aClearInterval w t).liveTimers = [] := by
  rcases h with h | h <;> simp [aClearInterval, h]

theorem startPopulationCounter_inv {w : AlmWorld} (pop : ℚ)
    (h : AlmInv w) : AlmInv (startPopulationCounter w pop) := by
  unfold startPopulationCounter
  cases hs : w.populationInterval with
  | none =>
    have hl := almInv_dest_none h hs
    refine almInv_mk_some rfl (Nat.lt_succ_self _) (Or.inr ?_)
    show w.liveTimers ++ [(w.nextTimer, 1000)] = [(w.nextTimer, 1000)]
    rw [hl]
    rfl
  | some t =>
    have hl := (almInv_dest_some h hs).2
    refine almInv_mk_some rfl (Nat.lt_succ_self _) (Or.inr ?_)
    show (aClearInterval w t).liveTimers ++ [(w.nextTimer, 1000)] =
      [(w.nextTimer, 1000)]
    rw [aClearInterval_tracked w t hl]
    rfl

theorem almUnload_inv {w : AlmWorld} (h : AlmInv w) :
    AlmInv (almUnload w) := by
  unfold almUnload
  cases hs : w.populationInterval with
  | none => exact h
  | some t =>
    have hd := almInv_dest_some h hs
    have hs' : (aClearInterval w t).populationInterval = some t := hs
    exact almInv_mk_some hs' hd.1 (Or.inl (aClearInterval_tracked w t hd.2))

theorem almStep_inv {w : AlmWorld} (e : AlmEvent)
    (h : AlmInv w) : AlmInv (almStep w e) := by
  cases e with
  | select pop => exact startPopulationCounter_inv pop h
  | tick t =>
    unfold almStep
    dsimp only
    by_cases hm : (t, 1000) ∈ w.liveTimers
    · rw [if_pos hm]
      unfold AlmInv at h ⊢
      exact h
    · rw [if_neg hm]
      exact h
  | unload => exact almUnload_inv h

theorem almInit_inv : AlmInv almInit := by
  unfold AlmInv almInit
  simp

theorem almFoldl_inv {w : AlmWorld} (es : List AlmEvent)
    (h : AlmInv w) : AlmInv (es.foldl almStep w) := by
  induction es generalizing w with
  | nil => exact h
  | cons e es ih => exact ih (almStep_inv e h)

theorem almRun_inv (es : List AlmEvent) : AlmInv (almRun es) :=
  almFoldl_inv es almInit_inv

theorem checkVideoStatus_none_eq {w : VideoWorld} (hj : w.jobId = none)
    (out : PollOutcome) : checkVideoStatus w out = w := by
  unfold checkVideoStatus
  rw [hj]

theorem checkVideoStatus_netError_eq {w : VideoWorld} {j : Nat}
    (hj : w.jobId = some j) :
    checkVideoStatus w .netError =
      { w with pollRequests := w.pollRequests + 1
               logErrors := w.logErrors + 1 } := by
  unfold checkVideoStatus
  rw [hj]

theorem checkVideoStatus_nonterminal_eq {w : VideoWorld} {j : Nat} {s : String}
    (hj : w.jobId = some j) (hc : s ≠ "completed") (hf : s ≠ "failed")
    (p : Nat) (e : Option String) :
    checkVideoStatus w (.ok s p e) =
      { w with pollRequests := w.pollRequests + 1 } := by
  unfold checkVideoStatus
  rw [hj]
  dsimp only
  by_cases hp : s = "processing"
  · rw [if_pos hp]
  · rw [if_neg hp, if_neg hc, if_neg hf]

theorem checkVideoStatus_completed_some_eq {w : VideoWorld} {j t : Nat}
    (hj : w.jobId = some j) (hs : w.statusPollInterval = some t)
    (p : Nat) (e : Option String) :
    checkVideoStatus w (.ok "completed" p e) =
      vShowToast
        { w with pollRequests := w.pollRequests + 1
                 liveTimers := w.liveTimers.filter (fun x => x.1 ≠ t)
                 statusPollInterval := none
                 processingVisible := false, downloadVisible := true
                 upscaleBtnDisabled := false, resizeBtnDisabled := false }
        "Video processed successfully!" "success" := by
  unfold checkVideoStatus
  rw [hj]
  dsimp only
  rw [hs]
  rfl

theorem checkVideoStatus_completed_none_eq {w : VideoWorld} {j : Nat}
    (hj : w.jobId = some j) (hs : w.statusPollInterval = none)
    (p : Nat) (e : Option String) :
    checkVideoStatus w (.ok "completed" p e) =
      vShowToast
        { w with pollRequests := w.pollRequests + 1
                 processingVisible := false, downloadVisible := true
                 upscaleBtnDisabled := false, resizeBtnDisabled := false }
        "Video processed successfully!" "success" := by
  unfold checkVideoStatus
  rw [hj]
  dsimp only
  rw [hs]
  rfl

theorem checkVideoStatus_failed_some_eq {w : VideoWorld} {j t : Nat}
    (hj : w.jobId = some j) (hs : w.statusPollInterval = some t)
    (p : Nat) (e : Option String) :
    checkVideoStatus w (.ok "failed" p e) =
      vShowToast
        { w with pollRequests := w.pollRequests + 1
                 liveTimers := w.liveTimers.filter (fun x => x.1 ≠ t)
                 statusPollInterval := none
                 processingVisible := false
                 upscaleBtnDisabled := false, resizeBtnDisabled := false }
        (failedMsg e) "error" := by
  unfold checkVideoStatus failedMsg
  rw [hj]
  dsimp only
  rw [hs]
  rfl

theorem checkVideoStatus_failed_none_eq {w : VideoWorld} {j : Nat}
    (hj : w.jobId = some j) (hs : w.statusPollInterval = none)
    (p : Nat) (e : Option String) :
    checkVideoStatus w (.ok "failed" p e) =
      vShowToast
        { w with pollRequests := w.pollRequests + 1
                 processingVisible := false
                 upscaleBtnDisabled := false, resizeBtnDisabled := false }
        (failedMsg e) "error" := by
  unfold checkVideoStatus failedMsg
  rw [hj]
  dsimp only
  rw [hs]
  rfl

theorem checkVideoStatus_jobId (w : VideoWorld) (out : PollOutcome) :
    (checkVideoStatus w out).jobId = w.jobId := by
  cases hj : w.jobId with
  | none => rw [checkVideoStatus_none_eq hj]; exact hj
  | some j =>
    cases out with
    | netError => rw [checkVideoStatus_netError_eq hj]; exact hj
    | ok s p e =>
      by_cases hc : s = "completed"
      · subst hc
        cases hs : w.statusPollInterval with
        | none => rw [checkVideoStatus_completed_none_eq hj hs]; exact hj
        | some t => rw [checkVideoStatus_completed_some_eq hj hs]; exact hj
      · by_cases hf : s = "failed"
        · subst hf
          cases hs : w.statusPollInterval with
          | none => rw [checkVideoStatus_failed_none_eq hj hs]; exact hj
          | some t => rw [checkVideoStatus_failed_some_eq hj hs]; exact hj
        · rw [checkVideoStatus_nonterminal_eq hj hc hf]; exact hj

theorem checkVideoStatus_pollRequests {w : VideoWorld} {j : Nat}
    (hj : w.jobId = some j) (out : PollOutcome) :
    (checkVideoStatus w out).pollRequests = w.pollRequests + 1 := by
  cases out with
  | netError => rw [checkVideoStatus_netError_eq hj]
  | ok s p e =>
    by_cases hc : s = "completed"
    · subst hc
      cases hs : w.statusPollInterval with
      | none => rw [checkVideoStatus_completed_none_eq hj hs]; rfl
      | some t => rw [checkVideoStatus_completed_some_eq hj hs]; rfl
    · by_cases hf : s = "failed"
      · subst hf
        cases hs : w.statusPollInterval with
        | none => rw [checkVideoStatus_failed_none_eq hj hs]; rfl
        | some t => rw [checkVideoStatus_failed_some_eq hj hs]; rfl
      · rw [checkVideoStatus_nonterminal_eq hj hc hf]

theorem checkVideoStatus_liveTimers_subset (w : VideoWorld) (out : PollOutcome)
    {x : Nat × Nat} (hx : x ∈ (checkVideoStatus w out).liveTimers) :
    x ∈ w.liveTimers := by
  cases hj : w.jobId with
  | none => rw [checkVideoStatus_none_eq hj] at hx; exact hx
  | some j =>
    cases out with
    | netError => rw [checkVideoStatus_netError_eq hj] at hx; exact hx
    | ok s p e =>
      by_cases hc : s = "completed"
      · subst hc
        cases hs : w.statusPollInterval with
        | none => rw [checkVideoStatus_completed_none_eq hj hs] at hx; exact hx
        | some t =>
          rw [checkVideoStatus_completed_some_eq hj hs] at hx
          exact List.mem_of_mem_filter hx
      · by_cases hf : s = "failed"
        · subst hf
          cases hs : w.statusPollInterval with
          | none => rw [checkVideoStatus_failed_none_eq hj hs] at hx; exact hx
          | some t =>
            rw [checkVideoStatus_failed_some_eq hj hs] at hx
            exact List.mem_of_mem_filter hx
        · rw [checkVideoStatus_nonterminal_eq hj hc hf] at hx; exact hx

theorem startStatusPolling_eq_some {w : VideoWorld} {t : Nat}
    (hs : w.statusPollInterval = some t) (fp : PollOutcome) :
    startStatusPolling w fp =
      checkVideoStatus
        { w with liveTimers :=
                   w.liveTimers.filter (fun x => x.1 ≠ t) ++ [(w.nextTimer, 2000)]
                 nextTimer := w.nextTimer + 1
                 statusPollInterval := some w.nextTimer } fp := by
  unfold startStatusPolling
  rw [hs]
  rfl

theorem startStatusPolling_eq_none {w : VideoWorld}
    (hs : w.statusPollInterval = none) (fp : PollOutcome) :
    startStatusPolling w fp =
      checkVideoStatus
        { w with liveTimers := w.liveTimers ++ [(w.nextTimer, 2000)]
                 nextTimer := w.nextTimer + 1
                 statusPollInterval := some w.nextTimer } fp := by
  unfold startStatusPolling
  rw [hs]
  rfl

theorem videoTick_noop {w : VideoWorld} (h : w.liveTimers = [])
    (t : Nat) (out : PollOutcome) : videoStep w (.tick t out) = w := by
  unfold videoStep
  dsimp only
  rw [if_neg (by simp [h])]

theorem videoTick_fires {w : VideoWorld} {t : Nat}
    (hm : (t, 2000) ∈ w.liveTimers) (out : PollOutcome) :
    videoStep w (.tick t out) = checkVideoStatus w out := by
  unfold videoStep
  dsimp only
  rw [if_pos hm]

theorem upscaleVideo_ok_eq {w : VideoWorld} {u : Nat}
    (hu : w.uploadId = some u) (j : Nat) (fp : PollOutcome) :
    upscaleVideo w (.ok j) fp =
      vShowToast
        (startStatusPolling
          { w with processingVisible := true, downloadVisible := false
                   upscaleBtnDisabled := true
                   submitRequests := w.submitRequests + 1
                   jobId := some j } fp)
        "Video upscaling started" "info" := by
  unfold upscaleVideo
  rw [hu]

theorem resizeVideo_ok_eq {w : VideoWorld} {u : Nat}
    (hu : w.uploadId = some u) (j : Nat) (fp : PollOutcome) :
    resizeVideo w (.ok j) fp =
      vShowToast
        (startStatusPolling
          { w with processingVisible := true, downloadVisible := false
                   resizeBtnDisabled := true
                   submitRequests := w.submitRequests + 1
                   jobId := some j } fp)
        "Video resizing started" "info" := by
  unfold resizeVideo
  rw [hu]

theorem validateVideoFile_bad_type {f : VFile}
    (hm : ¬ f.ftype ∈ (["video/mp4", "video/avi", "video/quicktime",
        "video/x-matroska", "video/webm", "video/x-flv",
        "video/x-ms-wmv"] : List String)) :
    validateVideoFile f =
      { valid := false
        error := some "Invalid file type. Please upload an MP4, AVI, MOV, MKV, WebM, FLV, or WMV video." } := by
  unfold validateVideoFile
  dsimp only
  rw [if_pos hm]

theorem validateVideoFile_too_big {f : VFile}
    (hm : f.ftype ∈ (["video/mp4", "video/avi", "video/quicktime",
        "video/x-matroska", "video/webm", "video/x-flv",
        "video/x-ms-wmv"] : List String))
    (hsz : f.size > 500 * 1024 * 1024) :
    validateVideoFile f =
      { valid := false
        error := some ("File size exceeds 500MB limit. Your file is " ++
          formatFileSize f.size ++ ".") } := by
  unfold validateVideoFile
  dsimp only
  rw [if_neg (not_not_intro hm), if_pos hsz]

theorem validateImageFile_bad_type {f : VFile}
    (hm : ¬ f.ftype ∈ (["image/jpeg", "image/png", "image/bmp", "image/gif",
        "image/tiff", "image/webp"] : List String)) :
    validateImageFile f =
      { valid := false
        error := some "Invalid file type. Please upload a JPG, PNG, BMP, GIF, TIFF, or WebP image." } := by
  unfold validateImageFile
  dsimp only
  rw [if_pos hm]

theorem validateImageFile_too_big {f : VFile}
    (hm : f.ftype ∈ (["image/jpeg", "image/png", "image/bmp", "image/gif",
        "image/tiff", "image/webp"] : List String))
    (hsz : f.size > 50 * 1024 * 1024) :
    validateImageFile f =
      { valid := false
        error := some ("File size exceeds 50MB limit. Your file is " ++
          formatFileSize f.size ++ ".") } := by
  unfold validateImageFile
  dsimp only
  rw [if_neg (not_not_intro hm), if_pos hsz]

theorem handleVideoFile_invalid {w : VideoWorld} {f : VFile}
    (up : UploadOutcome) (h : (validateVideoFile f).valid = false) :
    handleVideoFile w f up =
      vShowToast w ((validateVideoFile f).error.getD "") "error" := by
  unfold handleVideoFile
  dsimp only
  rw [if_pos (by simp [h])]

theorem handlePhotoFile_invalid {w : PhotoWorld} {f : VFile}
    (up : UploadOutcome) (h : (validateImageFile f).valid = false) :
    handlePhotoFile w f up =
      pShowToast w ((validateImageFile f).error.getD "") "error" := by
  unfold handlePhotoFile
  dsimp only
  rw [if_pos (by simp [h])]

theorem processPhoto_ok_eq {w : PhotoWorld} {u : Nat}
    (hu : w.uploadId = some u) (j : Nat) :
    processPhoto w (.ok j) =
      pShowToast
        { w with submitRequests := w.submitRequests + 1
                 jobId := some j
                 processingVisible := false, downloadVisible := true
                 processBtnDisabled := false }
        "Photo processed successfully!" "success" := by
  unfold processPhoto
  rw [hu]

theorem downloadVideo_none_eq {w : VideoWorld} (hj : w.jobId = none) :
    downloadVideo w = vShowToast w "No processed video available" "error" := by
  unfold downloadVideo
  rw [hj]

theorem downloadVideo_some_eq {w : VideoWorld} {j : Nat}
    (hj : w.jobId = some j) :
    downloadVideo w =
      vShowToast { w with downloadActions := w.downloadActions + 1 }
        "Download started!" "success" := by
  unfold downloadVideo
  rw [hj]

theorem downloadPhoto_none_eq {w : PhotoWorld} (hj : w.jobId = none) :
    downloadPhoto w = pShowToast w "No processed photo available" "error" := by
  unfold downloadPhoto
  rw [hj]

theorem downloadPhoto_some_eq {w : PhotoWorld} {j : Nat}
    (hj : w.jobId = some j) :
    downloadPhoto w =
      pShowToast { w with downloadActions := w.downloadActions + 1 }
        "Download started!" "success" := by
  unfold downloadPhoto
  rw [hj]

/-- C8: the file-acceptance policy is exact and its size limits are
inclusive: `validateImageFile` accepts exactly the six listed image MIME
types up to 50MB, `validateVideoFile` accepts exactly the seven listed
video MIME types up to 500MB, and a file of exactly the maximum size is
accepted (rejection requires size strictly greater than the limit). -/
theorem C8_validation_policy_exact (f : VFile) :
    ((validateImageFile f).valid = true ↔
      (f.ftype ∈ (["image/jpeg", "image/png", "image/bmp", "image/gif",
          "image/tiff", "image/webp"] : List String) ∧
       f.size ≤ 50 * 1024 * 1024)) ∧
    ((validateVideoFile f).valid = true ↔
      (f.ftype ∈ (["video/mp4", "video/avi", "video/quicktime",
          "video/x-matroska", "video/webm", "video/x-flv",
          "video/x-ms-wmv"] : List String) ∧
       f.size ≤ 500 * 1024 * 1024)) := by
  constructor
  · unfold validateImageFile
    dsimp only
    by_cases hm : f.ftype ∈ (["image/jpeg", "image/png", "image/bmp",
        "image/gif", "image/tiff", "image/webp"] : List String)
    · rw [if_neg (not_not_intro hm)]
      by_cases hsz : f.size > 50 * 1024 * 1024
      · rw [if_pos hsz]
        constructor
        · intro hfalse
          exact Bool.noConfusion hfalse
        · rintro ⟨-, hle⟩
          omega
      · rw [if_neg hsz]
        constructor
        · intro _
          exact ⟨hm, by omega⟩
        · intro _
          rfl
    · rw [if_pos hm]
      constructor
      · intro hfalse
        exact Bool.noConfusion hfalse
      · rintro ⟨hmem, -⟩
        exact absurd hmem hm
  · unfold validateVideoFile
    dsimp only
    by_cases hm : f.ftype ∈ (["video/mp4", "video/avi", "video/quicktime",
        "video/x-matroska", "video/webm", "video/x-flv",
        "video/x-ms-wmv"] : List String)
    · rw [if_neg (not_not_intro hm)]
      by_cases hsz : f.size > 500 * 1024 * 1024
      · rw [if_pos hsz]
        constructor
        · intro hfalse
          exact Bool.noConfusion hfalse
        · rintro ⟨-, hle⟩
          omega
      · rw [if_neg hsz]
        constructor
        · intro _
          exact ⟨hm, by omega⟩
        · intro _
          rfl
    · rw [if_pos hm]
      constructor
      · intro hfalse
        exact Bool.noConfusion hfalse
      · rintro ⟨hmem, -⟩
        exact absurd hmem hm

/-- C4: a file whose MIME type is outside the kind's allow-list or whose
size exceeds the kind's maximum makes the file handler show the
validation error as one error toast and return: the handler's entire
effect is that toast, and in particular no upload, submission or status
request is issued. -/
theorem C4_invalid_file_no_network :
    (∀ (w : VideoWorld) (f : VFile) (up : UploadOutcome),
      (¬ f.ftype ∈ (["video/mp4", "video/avi", "video/quicktime",
          "video/x-matroska", "video/webm", "video/x-flv",
          "video/x-ms-wmv"] : List String) ∨ f.size > 500 * 1024 * 1024) →
      ∃ m, (validateVideoFile f).error = some m ∧
        handleVideoFile w f up = vShowToast w m "error" ∧
        (handleVideoFile w f up).uploadRequests = w.uploadRequests ∧
        (handleVideoFile w f up).submitRequests = w.submitRequests ∧
        (handleVideoFile w f up).pollRequests = w.pollRequests) ∧
    (∀ (w : PhotoWorld) (f : VFile) (up : UploadOutcome),
      (¬ f.ftype ∈ (["image/jpeg", "image/png", "image/bmp", "image/gif",
          "image/tiff", "image/webp"] : List String) ∨ f.size > 50 * 1024 * 1024) →
      ∃ m, (validateImageFile f).error = some m ∧
        handlePhotoFile w f up = pShowToast w m "error" ∧
        (handlePhotoFile w f up).uploadRequests = w.uploadRequests ∧
        (handlePhotoFile w f up).submitRequests = w.submitRequests ∧
        (handlePhotoFile w f up).statusRequests = w.statusRequests) := by
  constructor
  · intro w f up h
    have hv : ∃ m, validateVideoFile f = { valid := false, error := some m } := by
      by_cases hm : f.ftype ∈ (["video/mp4", "video/avi", "video/quicktime",
          "video/x-matroska", "video/webm", "video/x-flv",
          "video/x-ms-wmv"] : List String)
      · rcases h with h | hsz
        · exact absurd hm h
        · exact ⟨_, validateVideoFile_too_big hm hsz⟩
      · exact ⟨_, validateVideoFile_bad_type hm⟩
    rcases hv with ⟨m, hv⟩
    have hinv := handleVideoFile_invalid (w := w) up (by rw [hv])
    refine ⟨m, by rw [hv], ?_, ?_, ?_, ?_⟩
    · rw [hinv, hv]
      rfl
    · rw [hinv]
      rfl
    · rw [hinv]
      rfl
    · rw [hinv]
      rfl
  · intro w f up h
    have hv : ∃ m, validateImageFile f = { valid := false, error := some m } := by
      by_cases hm : f.ftype ∈ (["image/jpeg", "image/png", "image/bmp",
          "image/gif", "image/tiff", "image/webp"] : List String)
      · rcases h with h | hsz
        · exact absurd hm h
        · exact ⟨_, validateImageFile_too_big hm hsz⟩
      · exact ⟨_, validateImageFile_bad_type hm⟩
    rcases hv with ⟨m, hv⟩
    have hinv := handlePhotoFile_invalid (w := w) up (by rw [hv])
    refine ⟨m, by rw [hv], ?_, ?_, ?_, ?_⟩
    · rw [hinv, hv]
      rfl
    · rw [hinv]
      rfl
    · rw [hinv]
      rfl
    · rw [hinv]
      rfl

/-- Witness for C4 at a concrete disallowed file. -/
theorem C4_invalid_file_no_network_witness :
    ∃ m, (validateVideoFile ⟨"text/plain", 5⟩).error = some m ∧
      handleVideoFile videoInit ⟨"text/plain", 5⟩ (.ok 1 ⟨0, 0, 0, 0⟩) =
        vShowToast videoInit m "error" ∧
      (handleVideoFile videoInit ⟨"text/plain", 5⟩ (.ok 1 ⟨0, 0, 0, 0⟩)).uploadRequests =
        videoInit.uploadRequests ∧
      (handleVideoFile videoInit ⟨"text/plain", 5⟩ (.ok 1 ⟨0, 0, 0, 0⟩)).submitRequests =
        videoInit.submitRequests ∧
      (handleVideoFile videoInit ⟨"text/plain", 5⟩ (.ok 1 ⟨0, 0, 0, 0⟩)).pollRequests =
        videoInit.pollRequests :=
  C4_invalid_file_no_network.1 videoInit ⟨"text/plain", 5⟩ (.ok 1 ⟨0, 0, 0, 0⟩)
    (Or.inl (by decide))

theorem checkVideoStatus_terminal_stops {w : VideoWorld} {j : Nat} {s : String}
    (hj : w.jobId = some j) (hinv : VideoInv w)
    (hterm : s = "completed" ∨ s = "failed") (p : Nat) (e : Option String) :
    (checkVideoStatus w (.ok s p e)).statusPollInterval = none ∧
    (checkVideoStatus w (.ok s p e)).liveTimers = [] := by
  have hfl : ∀ t, w.statusPollInterval = some t →
      List.filter (fun x => decide (x.1 ≠ t)) w.liveTimers = [] := by
    intro t hs
    rcases (videoInv_dest_some hinv hs).2 with h | h <;> simp [h]
  rcases hterm with h | h
  · subst h
    cases hs : w.statusPollInterval with
    | none =>
      rw [checkVideoStatus_completed_none_eq hj hs]
      exact ⟨hs, videoInv_dest_none hinv hs⟩
    | some t =>
      rw [checkVideoStatus_completed_some_eq hj hs]
      exact ⟨rfl, hfl t hs⟩
  · subst h
    cases hs : w.statusPollInterval with
    | none =>
      rw [checkVideoStatus_failed_none_eq hj hs]
      exact ⟨hs, videoInv_dest_none hinv hs⟩
    | some t =>
      rw [checkVideoStatus_failed_some_eq hj hs]
      exact ⟨rfl, hfl t hs⟩

/-- C5: a failed poll request (network error or non-success response) is
logged only: the poll's entire effect is one request count and one console
log — the interval is not cleared, the timer set is untouched, no toast is
produced — and a still-live timer fires the next scheduled poll as
usual. -/
theorem C5_transient_poll_error_swallowed :
    ∀ (w : VideoWorld) (j : Nat), w.jobId = some j →
      checkVideoStatus w .netError =
        { w with pollRequests := w.pollRequests + 1
                 logErrors := w.logErrors + 1 } ∧
      (checkVideoStatus w .netError).toasts = w.toasts ∧
      (checkVideoStatus w .netError).statusPollInterval = w.statusPollInterval ∧
      (checkVideoStatus w .netError).liveTimers = w.liveTimers ∧
      (∀ (t : Nat) (out : PollOutcome), (t, 2000) ∈ w.liveTimers →
        videoStep (checkVideoStatus w .netError) (.tick t out) =
          checkVideoStatus (checkVideoStatus w .netError) out) := by
  intro w j hj
  have he := checkVideoStatus_netError_eq hj
  refine ⟨he, by rw [he], by rw [he], by rw [he], ?_⟩
  intro t out hm
  refine videoTick_fires ?_ out
  rw [he]
  exact hm

/-- Witness for C5 at the demonstration state. -/
theorem C5_transient_poll_error_swallowed_witness :
    checkVideoStatus wDemo .netError =
      { wDemo with pollRequests := wDemo.pollRequests + 1
                   logErrors := wDemo.logErrors + 1 } :=
  (C5_transient_poll_error_swallowed wDemo 5 rfl).1

/-- C6: when a poll observes the terminal status `failed`, the interval is
cleared (no timer stays live, so no later tick has any effect) and exactly
one error toast is appended whose message is the poll response's error
description, falling back to a default when the response carries none. -/
theorem C6_failed_poll_stops_and_notifies :
    ∀ (w : VideoWorld) (j p : Nat) (err : Option String),
      w.jobId = some j → VideoInv w →
      (checkVideoStatus w (.ok "failed" p err)).statusPollInterval = none ∧
      (checkVideoStatus w (.ok "failed" p err)).liveTimers = [] ∧
      (∀ (t : Nat) (out : PollOutcome),
        videoStep (checkVideoStatus w (.ok "failed" p err)) (.tick t out) =
          checkVideoStatus w (.ok "failed" p err)) ∧
      (checkVideoStatus w (.ok "failed" p err)).toasts =
        w.toasts ++ [⟨failedMsg err, "error"⟩] ∧
      (∀ e, err = some e → e ≠ "" → failedMsg err = e) ∧
      ((err = none ∨ err = some "") → failedMsg err = "Video processing failed") := by
  intro w j p err hj hinv
  have hstop := checkVideoStatus_terminal_stops hj hinv (Or.inr rfl) p err
  refine ⟨hstop.1, hstop.2, ?_, ?_, ?_, ?_⟩
  · intro t out
    exact videoTick_noop hstop.2 t out
  · cases hs : w.statusPollInterval with
    | none => rw [checkVideoStatus_failed_none_eq hj hs]; rfl
    | some t => rw [checkVideoStatus_failed_some_eq hj hs]; rfl
  · intro e hee hne
    rw [hee]
    unfold failedMsg
    dsimp only
    rw [if_neg hne]
  · rintro (hee | hee) <;> rw [hee] <;> rfl

/-- Witness for C6 at the demonstration state with a concrete error. -/
theorem C6_failed_poll_stops_and_notifies_witness :
    (checkVideoStatus wDemo (.ok "failed" 100 (some "decode error"))).toasts =
      wDemo.toasts ++ [⟨failedMsg (some "decode error"), "error"⟩] :=
  (C6_failed_poll_stops_and_notifies wDemo 5 100 (some "decode error") rfl
    (videoRun_inv _)).2.2.2.1

theorem startStatusPolling_clears {w : VideoWorld} {t : Nat} (fp : PollOutcome)
    (hn : t < w.nextTimer) (hs : w.statusPollInterval = some t) :
    (t, 2000) ∉ (startStatusPolling w fp).liveTimers := by
  rw [startStatusPolling_eq_some hs]
  intro hmem
  have hx := checkVideoStatus_liveTimers_subset _ fp hmem
  rcases List.mem_append.mp hx with hmem2 | hmem2
  · have := List.of_mem_filter hmem2
    simp at this
  · simp at hmem2
    omega

theorem startStatusPolling_pollRequests {w : VideoWorld} {j : Nat}
    (hj : w.jobId = some j) (fp : PollOutcome) :
    (startStatusPolling w fp).pollRequests = w.pollRequests + 1 := by
  cases hs : w.statusPollInterval with
  | none =>
    rw [startStatusPolling_eq_none hs]
    refine checkVideoStatus_pollRequests (j := j) ?_ fp
    exact hj
  | some t =>
    rw [startStatusPolling_eq_some hs]
    refine checkVideoStatus_pollRequests (j := j) ?_ fp
    exact hj

theorem ticksFoldl_noop {w : VideoWorld} (h : w.liveTimers = [])
    (ts : List (Nat × PollOutcome)) :
    (ts.map (fun q => VideoEvent.tick q.1 q.2)).foldl videoStep w = w := by
  induction ts with
  | nil => rfl
  | cons q ts ih =>
    simp only [List.map_cons, List.foldl_cons]
    rw [videoTick_noop h]
    exact ih

/-- C1: at most one polling loop is ever active.  Whenever a stored
polling-interval id exists, `startStatusPolling` — reached from both
`upscaleVideo` and `resizeVideo` on a successful submission — removes the
prior timer before the new polling loop runs, the resulting state has at
most one live timer, and along every event sequence from the initial state
the video editor never has more than one live interval timer. -/
theorem C1_single_polling_loop :
    (∀ (w : VideoWorld) (fp : PollOutcome) (t : Nat),
       VideoInv w → w.statusPollInterval = some t →
       (t, 2000) ∉ (startStatusPolling w fp).liveTimers ∧
       (startStatusPolling w fp).liveTimers.length ≤ 1) ∧
    (∀ (w : VideoWorld) (u j t : Nat) (fp : PollOutcome),
       VideoInv w → w.uploadId = some u → w.statusPollInterval = some t →
       (t, 2000) ∉ (upscaleVideo w (.ok j) fp).liveTimers ∧
       (t, 2000) ∉ (resizeVideo w (.ok j) fp).liveTimers) ∧
    (∀ es : List VideoEvent, (videoRun es).liveTimers.length ≤ 1) := by
  refine ⟨?_, ?_, ?_⟩
  · intro w fp t hinv hs
    have hn := (videoInv_dest_some hinv hs).1
    exact ⟨startStatusPolling_clears fp hn hs,
           videoInv_length (startStatusPolling_inv fp hinv)⟩
  · intro w u j t fp hinv hu hs
    have hn := (videoInv_dest_some hinv hs).1
    constructor
    · rw [upscaleVideo_ok_eq hu]
      show (t, 2000) ∉ (startStatusPolling _ fp).liveTimers
      refine startStatusPolling_clears fp ?_ ?_
      · exact hn
      · exact hs
    · rw [resizeVideo_ok_eq hu]
      show (t, 2000) ∉ (startStatusPolling _ fp).liveTimers
      refine startStatusPolling_clears fp ?_ ?_
      · exact hn
      · exact hs
  · intro es
    exact videoInv_length (videoRun_inv es)

/-- Witness for C1 at the demonstration state, whose polling loop (timer
id 1) is active. -/
theorem C1_single_polling_loop_witness :
    (1, 2000) ∉ (startStatusPolling wDemo .netError).liveTimers ∧
    (startStatusPolling wDemo .netError).liveTimers.length ≤ 1 :=
  C1_single_polling_loop.1 wDemo .netError 1 (videoRun_inv _) rfl

/-- C2: after a successful submission polling starts with an immediate
first check (one status request is issued inside `startStatusPolling`
itself), every live timer of any reachable state has the fixed 2000ms
period, a failed or non-terminal poll leaves the timer and stored interval
id untouched (so polling continues), a terminal poll (`completed` or
`failed`) nulls the stored interval id and leaves no live timer, and once
no timer is live any sequence of further timer ticks changes nothing — no
further poll request is ever issued. -/
theorem C2_fixed_interval_until_terminal :
    (∀ (w : VideoWorld) (j : Nat) (fp : PollOutcome), w.jobId = some j →
       (startStatusPolling w fp).pollRequests = w.pollRequests + 1) ∧
    (∀ (es : List VideoEvent) (x : Nat × Nat),
       x ∈ (videoRun es).liveTimers → x.2 = 2000) ∧
    (∀ (w : VideoWorld) (j : Nat), w.jobId = some j →
       (checkVideoStatus w .netError).liveTimers = w.liveTimers ∧
       (checkVideoStatus w .netError).statusPollInterval = w.statusPollInterval) ∧
    (∀ (w : VideoWorld) (j : Nat) (s : String) (p : Nat) (e : Option String),
       w.jobId = some j → s ≠ "completed" → s ≠ "failed" →
       (checkVideoStatus w (.ok s p e)).liveTimers = w.liveTimers ∧
       (checkVideoStatus w (.ok s p e)).statusPollInterval = w.statusPollInterval) ∧
    (∀ (w : VideoWorld) (j : Nat) (s : String) (p : Nat) (e : Option String),
       w.jobId = some j → VideoInv w → (s = "completed" ∨ s = "failed") →
       (checkVideoStatus w (.ok s p e)).statusPollInterval = none ∧
       (checkVideoStatus w (.ok s p e)).liveTimers = []) ∧
    (∀ (w : VideoWorld) (ts : List (Nat × PollOutcome)), w.liveTimers = [] →
       (ts.map (fun q => VideoEvent.tick q.1 q.2)).foldl videoStep w = w) := by
  refine ⟨?_, ?_, ?_, ?_, ?_, ?_⟩
  · intro w j fp hj
    exact startStatusPolling_pollRequests hj fp
  · intro es x hx
    have hinv := videoRun_inv es
    cases hs : (videoRun es).statusPollInterval with
    | none =>
      rw [videoInv_dest_none hinv hs] at hx
      cases hx
    | some t =>
      rcases (videoInv_dest_some hinv hs).2 with h | h <;> rw [h] at hx
      · cases hx
      · rcases List.mem_singleton.mp hx with rfl
        rfl
  · intro w j hj
    rw [checkVideoStatus_netError_eq hj]
    exact ⟨rfl, rfl⟩
  · intro w j s p e hj hc hf
    rw [checkVideoStatus_nonterminal_eq hj hc hf]
    exact ⟨rfl, rfl⟩
  · intro w j s p e hj hinv hterm
    exact checkVideoStatus_terminal_stops hj hinv hterm p e
  · intro w ts h
    exact ticksFoldl_noop h ts

/-- Witness for C2 at the demonstration state. -/
theorem C2_fixed_interval_until_terminal_witness :
    (startStatusPolling wDemo .netError).pollRequests = wDemo.pollRequests + 1 :=
  C2_fixed_interval_until_terminal.1 wDemo 5 .netError rfl

theorem startStatusPolling_jobId (w : VideoWorld) (fp : PollOutcome) :
    (startStatusPolling w fp).jobId = w.jobId := by
  cases hs : w.statusPollInterval with
  | none => rw [startStatusPolling_eq_none hs, checkVideoStatus_jobId]
  | some t => rw [startStatusPolling_eq_some hs, checkVideoStatus_jobId]

theorem checkVideoStatus_nonterminal_liveTimers {w : VideoWorld} {j : Nat}
    {s : String} (hj : w.jobId = some j) (hc : s ≠ "completed")
    (hf : s ≠ "failed") (p : Nat) (e : Option String) :
    (checkVideoStatus w (.ok s p e)).liveTimers = w.liveTimers := by
  rw [checkVideoStatus_nonterminal_eq hj hc hf]

theorem checkVideoStatus_nonterminal_spi {w : VideoWorld} {j : Nat}
    {s : String} (hj : w.jobId = some j) (hc : s ≠ "completed")
    (hf : s ≠ "failed") (p : Nat) (e : Option String) :
    (checkVideoStatus w (.ok s p e)).statusPollInterval =
      w.statusPollInterval := by
  rw [checkVideoStatus_nonterminal_eq hj hc hf]

theorem startStatusPolling_nonterminal_state {w : VideoWorld} {j : Nat}
    {s : String} (hj : w.jobId = some j) (hinv : VideoInv w)
    (hc : s ≠ "completed") (hf : s ≠ "failed") (p : Nat) (e : Option String) :
    (startStatusPolling w (.ok s p e)).liveTimers = [(w.nextTimer, 2000)] ∧
    (startStatusPolling w (.ok s p e)).statusPollInterval =
      some w.nextTimer := by
  cases hs : w.statusPollInterval with
  | none =>
    have hl := videoInv_dest_none hinv hs
    rw [startStatusPolling_eq_none hs]
    constructor
    · refine Eq.trans (checkVideoStatus_nonterminal_liveTimers (j := j) ?_ hc hf p e) ?_
      · exact hj
      · show w.liveTimers ++ [(w.nextTimer, 2000)] = [(w.nextTimer, 2000)]
        rw [hl]
        rfl
    · refine Eq.trans (checkVideoStatus_nonterminal_spi (j := j) ?_ hc hf p e) ?_
      · exact hj
      · rfl
  | some t =>
    have hl := (videoInv_dest_some hinv hs).2
    rw [startStatusPolling_eq_some hs]
    constructor
    · refine Eq.trans (checkVideoStatus_nonterminal_liveTimers (j := j) ?_ hc hf p e) ?_
      · exact hj
      · show w.liveTimers.filter (fun x => x.1 ≠ t) ++ [(w.nextTimer, 2000)] =
          [(w.nextTimer, 2000)]
        rcases hl with h | h <;> simp [h]
    · refine Eq.trans (checkVideoStatus_nonterminal_spi (j := j) ?_ hc hf p e) ?_
      · exact hj
      · rfl

/-- C3 counterexample: in the photo editor a successful submission stores
the returned job handle but does not begin polling — after this concrete
successful submission, zero status requests have been issued and no timer
is live (the download action is shown immediately instead).  This refutes
the claim that both editors follow submission with the status-polling
loop. -/
theorem C3_photo_submit_no_polling_cex :
    pDemoDone.jobId = some 7 ∧
    pDemoDone.statusRequests = 0 ∧
    pDemoDone.liveTimers = [] ∧
    pDemoDone.downloadVisible = true :=
  ⟨rfl, rfl, rfl, rfl⟩

/-- C3 (amended): on a successful submission the video editor stores the
returned JobHandle and begins status polling (an immediate first status
request, and — when the first poll is non-terminal — a live 2000ms polling
timer); the photo editor stores the returned JobHandle but does not poll:
it issues no status request, registers no timer, and shows the download
action immediately. -/
theorem C3_submit_stores_handle_video_polls_photo_does_not :
    (∀ (w : VideoWorld) (u j : Nat) (fp : PollOutcome), w.uploadId = some u →
       (upscaleVideo w (.ok j) fp).jobId = some j ∧
       (upscaleVideo w (.ok j) fp).pollRequests = w.pollRequests + 1) ∧
    (∀ (w : VideoWorld) (u j p : Nat) (e : Option String),
       w.uploadId = some u → VideoInv w →
       (upscaleVideo w (.ok j) (.ok "processing" p e)).liveTimers =
         [(w.nextTimer, 2000)] ∧
       (upscaleVideo w (.ok j) (.ok "processing" p e)).statusPollInterval =
         some w.nextTimer) ∧
    (∀ (w : PhotoWorld) (u j : Nat), w.uploadId = some u →
       (processPhoto w (.ok j)).jobId = some j ∧
       (processPhoto w (.ok j)).statusRequests = w.statusRequests ∧
       (processPhoto w (.ok j)).liveTimers = w.liveTimers ∧
       (processPhoto w (.ok j)).downloadVisible = true) := by
  refine ⟨?_, ?_, ?_⟩
  · intro w u j fp hu
    constructor
    · rw [upscaleVideo_ok_eq hu]
      show (startStatusPolling _ fp).jobId = some j
      rw [startStatusPolling_jobId]
    · rw [upscaleVideo_ok_eq hu]
      show (startStatusPolling _ fp).pollRequests = w.pollRequests + 1
      refine startStatusPolling_pollRequests (j := j) ?_ fp
      rfl
  · intro w u j p e hu hinv
    constructor
    · rw [upscaleVideo_ok_eq hu]
      show (startStatusPolling _ (.ok "processing" p e)).liveTimers =
        [(w.nextTimer, 2000)]
      refine (startStatusPolling_nonterminal_state (j := j)
        ?_ ?_ (by decide) (by decide) p e).1
      · rfl
      · exact videoInv_of_eq rfl rfl rfl hinv
    · rw [upscaleVideo_ok_eq hu]
      show (startStatusPolling _ (.ok "processing" p e)).statusPollInterval =
        some w.nextTimer
      refine (startStatusPolling_nonterminal_state (j := j)
        ?_ ?_ (by decide) (by decide) p e).2
      · rfl
      · exact videoInv_of_eq rfl rfl rfl hinv
  · intro w u j hu
    refine ⟨?_, ?_, ?_, ?_⟩ <;> rw [processPhoto_ok_eq hu] <;> rfl

/-- Witness for the amended C3 at concrete states. -/
theorem C3_submit_stores_handle_witness :
    ((upscaleVideo wUploaded (.ok 5) .netError).jobId = some 5 ∧
     (upscaleVideo wUploaded (.ok 5) .netError).pollRequests =
       wUploaded.pollRequests + 1) ∧
    ((processPhoto pDemo (.ok 7)).jobId = some 7 ∧
     (processPhoto pDemo (.ok 7)).statusRequests = pDemo.statusRequests ∧
     (processPhoto pDemo (.ok 7)).liveTimers = pDemo.liveTimers ∧
     (processPhoto pDemo (.ok 7)).downloadVisible = true) :=
  ⟨C3_submit_stores_handle_video_polls_photo_does_not.1 wUploaded 1 5 .netError rfl,
   C3_submit_stores_handle_video_polls_photo_does_not.2.2 pDemo 1 7 rfl⟩

/-- C7 counterexample: in this concrete session an upscale job (job id 5)
was submitted and only `processing` was ever observed — the job never
reached `completed` — yet `downloadVideo` constructs a download action and
shows a success toast; no not-ready error is produced. -/
theorem C7_download_without_completion_cex :
    wDemo.jobId = some 5 ∧
    wDemo.downloadVisible = false ∧
    (downloadVideo wDemo).downloadActions = wDemo.downloadActions + 1 ∧
    (downloadVideo wDemo).toasts =
      wDemo.toasts ++ [⟨"Download started!", "success"⟩] :=
  ⟨rfl, rfl, rfl, rfl⟩

/-- C7 (amended): the retrieval operations guard only on the presence of a
stored JobHandle, not on completion: with no JobHandle stored they show an
error toast and construct no download action, and with one stored they
construct a download action regardless of the job's state. -/
theorem C7_download_guard_checks_presence_only :
    (∀ w : VideoWorld,
      (w.jobId = none →
        downloadVideo w = vShowToast w "No processed video available" "error") ∧
      (∀ j, w.jobId = some j →
        downloadVideo w =
          vShowToast { w with downloadActions := w.downloadActions + 1 }
            "Download started!" "success")) ∧
    (∀ w : PhotoWorld,
      (w.jobId = none →
        downloadPhoto w = pShowToast w "No processed photo available" "error") ∧
      (∀ j, w.jobId = some j →
        downloadPhoto w =
          pShowToast { w with downloadActions := w.downloadActions + 1 }
            "Download started!" "success")) := by
  constructor
  · intro w
    exact ⟨fun hj => downloadVideo_none_eq hj,
           fun j hj => downloadVideo_some_eq hj⟩
  · intro w
    exact ⟨fun hj => downloadPhoto_none_eq hj,
           fun j hj => downloadPhoto_some_eq hj⟩

/-- Witness for the amended C7 at the demonstration state. -/
theorem C7_download_guard_witness :
    downloadVideo wDemo =
      vShowToast { wDemo with downloadActions := wDemo.downloadActions + 1 }
        "Download started!" "success" :=
  (C7_download_guard_checks_presence_only.1 wDemo).2 5 rfl

theorem pickComputerMove_cases {r : ℚ} (h0 : 0 ≤ r) (h1 : r < 1) :
    pickComputerMove r = "Rock" ∨ pickComputerMove r = "Paper" ∨
    pickComputerMove r = "Scissors" := by
  unfold pickComputerMove
  by_cases ha : r < 1 / 3
  · left
    rw [if_pos ⟨h0, ha⟩]
  · by_cases hb : r < 2 / 3
    · right; left
      rw [if_neg (fun hcon => ha hcon.2), if_pos ⟨le_of_not_lt ha, hb⟩]
    · right; right
      rw [if_neg (fun hcon => ha hcon.2), if_neg (fun hcon => hb hcon.2),
          if_pos ⟨le_of_not_lt hb, h1⟩]

/-- C9: for player moves in the three-move set and any draw of
`Math.random()` in `[0,1)`, one call to `playGame` increments exactly one
of wins / losses / ties by exactly one (the total grows by one), with wins
incremented exactly on the three winning pairs and ties incremented
exactly when the two moves are equal. -/
theorem C9_playGame_scoring :
    ∀ pm ∈ (["Rock", "Paper", "Scissors"] : List String),
    ∀ (r : ℚ), 0 ≤ r → r < 1 → ∀ (sc : Score),
      ((playGame pm r sc).1.wins + (playGame pm r sc).1.losses +
         (playGame pm r sc).1.ties = sc.wins + sc.losses + sc.ties + 1) ∧
      ((playGame pm r sc).1.wins = sc.wins ∨
        (playGame pm r sc).1.wins = sc.wins + 1) ∧
      ((playGame pm r sc).1.losses = sc.losses ∨
        (playGame pm r sc).1.losses = sc.losses + 1) ∧
      ((playGame pm r sc).1.ties = sc.ties ∨
        (playGame pm r sc).1.ties = sc.ties + 1) ∧
      ((playGame pm r sc).1.wins = sc.wins + 1 ↔
        (pm, pickComputerMove r) ∈ ([("Rock", "Scissors"), ("Paper", "Rock"),
          ("Scissors", "Paper")] : List (String × String))) ∧
      ((playGame pm r sc).1.ties = sc.ties + 1 ↔ pm = pickComputerMove r) := by
  intro pm hpm r h0 h1 sc
  have hpm3 : pm = "Rock" ∨ pm = "Paper" ∨ pm = "Scissors" := by
    simpa using hpm
  rcases pickComputerMove_cases h0 h1 with hcm | hcm | hcm <;>
    rcases hpm3 with rfl | rfl | rfl <;>
      unfold playGame <;> rw [hcm] <;> simp <;> omega

/-- Witness for C9: playing Rock with a zero random draw (computer plays
Rock) ties from a zero score. -/
theorem C9_playGame_scoring_witness :
    ((playGame "Rock" 0 ⟨0, 0, 0⟩).1.wins + (playGame "Rock" 0 ⟨0, 0, 0⟩).1.losses +
       (playGame "Rock" 0 ⟨0, 0, 0⟩).1.ties =
       (⟨0, 0, 0⟩ : Score).wins + (⟨0, 0, 0⟩ : Score).losses +
         (⟨0, 0, 0⟩ : Score).ties + 1) ∧
    ((playGame "Rock" 0 ⟨0, 0, 0⟩).1.wins = (⟨0, 0, 0⟩ : Score).wins ∨
      (playGame "Rock" 0 ⟨0, 0, 0⟩).1.wins = (⟨0, 0, 0⟩ : Score).wins + 1) ∧
    ((playGame "Rock" 0 ⟨0, 0, 0⟩).1.losses = (⟨0, 0, 0⟩ : Score).losses ∨
      (playGame "Rock" 0 ⟨0, 0, 0⟩).1.losses = (⟨0, 0, 0⟩ : Score).losses + 1) ∧
    ((playGame "Rock" 0 ⟨0, 0, 0⟩).1.ties = (⟨0, 0, 0⟩ : Score).ties ∨
      (playGame "Rock" 0 ⟨0, 0, 0⟩).1.ties = (⟨0, 0, 0⟩ : Score).ties + 1) ∧
    ((playGame "Rock" 0 ⟨0, 0, 0⟩).1.wins = (⟨0, 0, 0⟩ : Score).wins + 1 ↔
      ("Rock", pickComputerMove 0) ∈ ([("Rock", "Scissors"), ("Paper", "Rock"),
        ("Scissors", "Paper")] : List (String × String))) ∧
    ((playGame "Rock" 0 ⟨0, 0, 0⟩).1.ties = (⟨0, 0, 0⟩ : Score).ties + 1 ↔
      "Rock" = pickComputerMove 0) :=
  C9_playGame_scoring "Rock" (by simp) 0 (le_refl 0) zero_lt_one ⟨0, 0, 0⟩

theorem startPopulationCounter_eq_none {w : AlmWorld}
    (hs : w.populationInterval = none) (pop : ℚ) :
    startPopulationCounter w pop =
      { w with currentPopulation := pop
               liveTimers := w.liveTimers ++ [(w.nextTimer, 1000)]
               nextTimer := w.nextTimer + 1
               populationInterval := some w.nextTimer } := by
  unfold startPopulationCounter
  rw [hs]

theorem startPopulationCounter_eq_some {w : AlmWorld} {t : Nat}
    (hs : w.populationInterval = some t) (pop : ℚ) :
    startPopulationCounter w pop =
      { w with currentPopulation := pop
               liveTimers :=
                 w.liveTimers.filter (fun x => x.1 ≠ t) ++ [(w.nextTimer, 1000)]
               nextTimer := w.nextTimer + 1
               populationInterval := some w.nextTimer } := by
  unfold startPopulationCounter
  rw [hs]
  rfl

theorem almUnload_none_eq {w : AlmWorld} (hs : w.populationInterval = none) :
    almUnload w = w := by
  unfold almUnload
  rw [hs]

theorem almUnload_some_eq {w : AlmWorld} {t : Nat}
    (hs : w.populationInterval = some t) :
    almUnload w = aClearInterval w t := by
  unfold almUnload
  rw [hs]

/-- C10: at most one population-counter timer is ever live.  Every call to
`startPopulationCounter` removes the previously registered interval (when
one exists) and leaves exactly one live timer, the unload handler clears
the live timer, and along every event sequence from the initial state the
number of live population timers is 0 or 1. -/
theorem C10_population_timer_exclusive :
    (∀ (w : AlmWorld) (pop : ℚ), AlmInv w →
       (startPopulationCounter w pop).liveTimers.length = 1 ∧
       (∀ t, w.populationInterval = some t →
          (t, 1000) ∉ (startPopulationCounter w pop).liveTimers)) ∧
    (∀ w : AlmWorld, AlmInv w → (almUnload w).liveTimers = []) ∧
    (∀ es : List AlmEvent, (almRun es).liveTimers.length ≤ 1) := by
  refine ⟨?_, ?_, ?_⟩
  · intro w pop hinv
    cases hs : w.populationInterval with
    | none =>
      have hl := almInv_dest_none hinv hs
      constructor
      · rw [startPopulationCounter_eq_none hs]
        show (w.liveTimers ++ [(w.nextTimer, 1000)]).length = 1
        rw [hl]
        rfl
      · intro t ht
        exact Option.noConfusion ht
    | some t =>
      have hd := almInv_dest_some hinv hs
      constructor
      · rw [startPopulationCounter_eq_some hs]
        show (w.liveTimers.filter (fun x : Nat × Nat => x.1 ≠ t) ++
          [(w.nextTimer, 1000)]).length = 1
        rcases hd.2 with h | h <;> simp [h]
      · intro t2 ht2
        have heq : t = t2 := Option.some.inj ht2
        subst heq
        rw [startPopulationCounter_eq_some hs]
        intro hmem
        rcases List.mem_append.mp hmem with hmem2 | hmem2
        · have := List.of_mem_filter hmem2
          simp at this
        · simp at hmem2
          omega
  · intro w hinv
    cases hs : w.populationInterval with
    | none =>
      rw [almUnload_none_eq hs]
      exact almInv_dest_none hinv hs
    | some t =>
      rw [almUnload_some_eq hs]
      exact aClearInterval_tracked w t (almInv_dest_some hinv hs).2
  · intro es
    exact almInv_length (almRun_inv es)

/-- Witness for C10 at a state with a live population timer. -/
theorem C10_population_timer_exclusive_witness :
    (startPopulationCounter aDemo 500).liveTimers.length = 1 ∧
    (1, 1000) ∉ (startPopulationCounter aDemo 500).liveTimers :=
  ⟨(C10_population_timer_exclusive.1 aDemo 500 (almRun_inv _)).1,
   (C10_population_timer_exclusive.1 aDemo 500 (almRun_inv _)).2 1 rfl⟩

end Playlist

